import Mathlib

set_option linter.dupNamespace false

/-!
# scx-manager: scheduler selection core

A shallow embedding of `src/src/scx_utils.cpp` and
`src/src/schedext-window-internal.cpp`, followed by the properties proved
about it.

Conventions of the embedding

* `std::string`, `std::string_view` and `QString` values are `String`s; the
  conversions `QString::fromStdString` / `toStdString` and the construction of
  a `rust::Str` from such a value are the identity on them.
* `std::optional<T>` is `Option T`; a call over the language bridge that can
  throw returns `Except String T`, the error carrying `e.what()`.
* `std::uint8_t` / `std::uint32_t` values are `Nat`s; a narrowing conversion
  is written `% 2 ^ 8` at the place where the source performs it.
* Output written to `stderr` is not part of the model; `tr` is the identity.
* A `QMessageBox::critical` call appends its text to the list of notices of
  the window and returns.
-/

/-! ## The mode enumeration -/

namespace scx

/-- The enumeration `scx::SchedMode` (declared in `scx_utils.hpp`). -/
inductive SchedMode where
  | Auto
  | Gaming
  | PowerSave
  | LowLatency
  | Server
  deriving DecidableEq, Repr

/-- Modelled from the spec: the numeric value of each `SchedMode` enumerator.
The declaration lives in `scx_utils.hpp`, which is not among the sources; the
values are those of the data model (`Auto=0, Gaming=1, PowerSave=2,
LowLatency=3, Server=4`). This is the result of `static_cast<std::uint32_t>`
and of `static_cast<std::uint8_t>` on a mode. -/
def SchedMode.toRaw : SchedMode → Nat
  | .Auto => 0
  | .Gaming => 1
  | .PowerSave => 2
  | .LowLatency => 3
  | .Server => 4

end scx

/-! ## The bridge to the scheduler loader -/

namespace scx_loader

/-- Modelled from the spec: the Rust object behind `m_config`, declared in the
generated header `scx-lib-cxxbridge/lib.h`, which is not among the sources.
Each field is the outcome of the corresponding call at the time a handler
runs: the returned value, or the fault raised over the bridge. Mode ordinals
are `uint32` values on both directions. -/
structure Config where
  get_scx_flags_for_mode : String → Nat → Except String (List String)
  apply_scheduler_change : String → Nat → String → String → Except String Unit
  disable_scheduler : String → Except String Unit
  get_current_sched : Except String String
  get_current_mode : Except String Nat

/-- Modelled from the spec: the free functions of the bridge namespace
`::scx_loader` (same header). -/
structure Bridge where
  get_supported_scheds : Except String (List String)
  init_config_file : String → Except String Config

end scx_loader

/-! ## `scx_utils.cpp` -/

/-- `convert_rust_vec_string`: copies the elements one by one, in order. -/
def convert_rust_vec_string (rust_vec : List String) : List String :=
  rust_vec.foldl (fun res_vec rust_vec_el => res_vec ++ [rust_vec_el]) []

/-- `convert_std_vec_into_stringlist`: appends the elements one by one. -/
def convert_std_vec_into_stringlist (std_vec : List String) : List String :=
  std_vec.foldl (fun flags vec_el => flags ++ [vec_el]) []

/-- `get_scx_mode_from_raw`; `raw_mode` is the `std::uint8_t` argument. The
`default` label only prints a diagnostic and falls through to the final
`return`. -/
def get_scx_mode_from_raw (raw_mode : Nat) : scx.SchedMode :=
  match raw_mode with
  | 0 => scx.SchedMode.Auto
  | 1 => scx.SchedMode.Gaming
  | 2 => scx.SchedMode.PowerSave
  | 3 => scx.SchedMode.LowLatency
  | 4 => scx.SchedMode.Server
  | _ => scx.SchedMode.Auto

namespace scx.loader

/-- `scx::loader::get_supported_scheds`. -/
def get_supported_scheds (bridge : scx_loader.Bridge) : Option (List String) :=
  match bridge.get_supported_scheds with
  | .ok rust_vec =>
    let flags_vec := convert_rust_vec_string rust_vec
    some (convert_std_vec_into_stringlist flags_vec)
  | .error _ => none

/-- The class `scx::loader::Config`: a box around the Rust object. -/
structure Config where
  m_config : scx_loader.Config

/-- `Config::init_config`. -/
def Config.init_config (bridge : scx_loader.Bridge) (filepath : String) : Option Config :=
  match bridge.init_config_file filepath with
  | .ok config => some ⟨config⟩
  | .error _ => none

/-- `Config::scx_flags_for_mode`. -/
def Config.scx_flags_for_mode (self : Config) (scx_sched : String)
    (sched_mode : scx.SchedMode) : Option (List String) :=
  match self.m_config.get_scx_flags_for_mode scx_sched sched_mode.toRaw with
  | .ok rust_vec =>
    let flags_vec := convert_rust_vec_string rust_vec
    some (convert_std_vec_into_stringlist flags_vec)
  | .error _ => none

/-- `Config::apply_scheduler_change`. -/
def Config.apply_scheduler_change (self : Config) (scx_sched : String)
    (sched_mode : scx.SchedMode) (extra_flags : String) (filepath : String) : Bool :=
  match self.m_config.apply_scheduler_change scx_sched sched_mode.toRaw extra_flags filepath with
  | .ok _ => true
  | .error _ => false

/-- `Config::disable_scheduler`. -/
def Config.disable_scheduler (self : Config) (filepath : String) : Bool :=
  match self.m_config.disable_scheduler filepath with
  | .ok _ => true
  | .error _ => false

/-- `Config::get_current_sched`. -/
def Config.get_current_sched (self : Config) : Option String :=
  match self.m_config.get_current_sched with
  | .ok current_sched => some current_sched
  | .error _ => none

/-- `Config::get_current_mode`. The bridge returns a `uint32`
(`raw_mode`); passing it to `get_scx_mode_from_raw` converts it to the
`std::uint8_t` parameter, that is, reduces it modulo `2 ^ 8`. -/
def Config.get_current_mode (self : Config) : Option scx.SchedMode :=
  match self.m_config.get_current_mode with
  | .ok raw_mode => some (get_scx_mode_from_raw (raw_mode % 2 ^ 8))
  | .error _ => none

end scx.loader

/-! ## `schedext-window-internal.cpp`: the kernel files and the mode names -/

/-- The kernel pseudo-files as `std::ifstream` sees them: `none` for a file
that cannot be opened, else the contents of the file. -/
abbrev KernelFiles := String → Option String

/-- `std::getline` on a freshly opened stream: `none` when no character can be
extracted (empty contents), else the characters before the first newline. -/
def getline (content : String) : Option String :=
  if content = "" then none
  else some (String.mk (content.toList.takeWhile (fun c => c != '\n')))

/-- `read_kernel_file`. -/
def read_kernel_file (fs : KernelFiles) (file_path : String) : String :=
  match fs file_path with
  | none => ""
  | some content =>
    match getline content with
    | none => ""
    | some file_content => file_content

/-- `get_current_scheduler`; `current_sched.empty()` is equality with the
empty string. -/
def get_current_scheduler (fs : KernelFiles) : String :=
  let current_state := read_kernel_file fs "/sys/kernel/sched_ext/state"
  if current_state ≠ "enabled" then
    current_state
  else
    let current_sched := read_kernel_file fs "/sys/kernel/sched_ext/root/ops"
    if current_sched = "" then
      "unknown"
    else
      current_sched

/-- `get_scx_mode_from_str`. -/
def get_scx_mode_from_str (scx_mode : String) : scx.SchedMode :=
  if scx_mode = "Gaming" then
    scx.SchedMode.Gaming
  else if scx_mode = "Lowlatency" then
    scx.SchedMode.LowLatency
  else if scx_mode = "Powersave" then
    scx.SchedMode.PowerSave
  else if scx_mode = "Server" then
    scx.SchedMode.Server
  else
    scx.SchedMode.Auto

/-! ## The widgets used by the window -/

/-- `QChar::isSpace`: the ASCII white space characters, U+0085, U+00A0 and
the characters of the Unicode separator categories. -/
def QChar_isSpace (c : Char) : Bool :=
  let u := c.toNat
  u == 0x20 || (0x09 ≤ u && u ≤ 0x0d) || u == 0x85 || u == 0xa0 || u == 0x1680 ||
    (0x2000 ≤ u && u ≤ 0x200a) || u == 0x2028 || u == 0x2029 || u == 0x202f ||
    u == 0x205f || u == 0x3000

/-- `QString::trimmed`: white space removed from both ends. -/
def QString_trimmed (s : String) : String :=
  String.mk ((s.toList.dropWhile QChar_isSpace).reverse.dropWhile QChar_isSpace).reverse

/-- `QStringList::join` with the separator `' '`. -/
def QStringList_join (l : List String) : String :=
  " ".intercalate l

/-- A non-editable `QComboBox`: its items, the current index (`-1` for no
current item) and whether it is hidden. -/
structure QComboBox where
  items : List String
  currentIndex : Int
  hidden : Bool

/-- `QComboBox::currentText`: the text of the current item, empty without
one. -/
def QComboBox.currentText (c : QComboBox) : String :=
  if 0 ≤ c.currentIndex then (c.items.get? c.currentIndex.toNat).getD "" else ""

/-- `QComboBox::setCurrentIndex`: an index outside the items leaves no current
item. -/
def QComboBox.setCurrentIndex (c : QComboBox) (index : Int) : QComboBox :=
  { c with currentIndex := if 0 ≤ index ∧ index < c.items.length then index else -1 }

/-- `QComboBox::addItems`: the items are appended; the first item becomes
current when the box was empty. -/
def QComboBox.addItems (c : QComboBox) (texts : List String) : QComboBox :=
  { c with
    items := c.items ++ texts
    currentIndex := if c.items.isEmpty && !texts.isEmpty then 0 else c.currentIndex }

/-- `QComboBox::setCurrentText` on a non-editable box: the first item with
that text becomes current, nothing happens without one. -/
def QComboBox.setCurrentText (c : QComboBox) (text : String) : QComboBox :=
  if text ∈ c.items then c.setCurrentIndex (c.items.indexOf text) else c

/-- A `QLabel`: its text and whether it is hidden. -/
structure QLabel where
  text : String
  hidden : Bool

/-- A `QLineEdit`: its text and whether it is hidden. -/
structure QLineEdit where
  text : String
  hidden : Bool

/-- A `QPushButton`: whether it is enabled. -/
structure QPushButton where
  enabled : Bool

/-- A `QTimer`: whether it is running, its interval in milliseconds and
whether its `timeout` signal is connected to `update_current_sched`. -/
structure QTimer where
  active : Bool
  interval : Nat
  timeout_connected : Bool

/-- The widgets of the form (`m_ui`) that the window code touches. -/
structure Ui where
  schedext_combo_box : QComboBox
  scheduler_select_label : QLabel
  schedext_profile_combo_box : QComboBox
  scheduler_profile_select_label : QLabel
  schedext_flags_edit : QLineEdit
  scheduler_set_flags_label : QLabel
  current_sched_label : QLabel
  apply_button : QPushButton
  disable_button : QPushButton

/-! ## `schedext-window-internal.cpp`: the window -/

namespace scxctl.impl

/-- The state of `scxctl::impl::SchedExtWindow` the code reads and writes:
the form, the timer, the configuration handle (a null `unique_ptr` is `none`),
the configuration path (a member declared in `schedext-window-internal.hpp`,
which is not among the sources, hence a parameter of the constructor), which
signals have been connected, and the notices shown so far. -/
structure SchedExtWindow where
  m_ui : Ui
  m_sched_timer : QTimer
  m_scx_config : Option scx.loader.Config
  m_config_path : String
  profile_changed_connected : Bool
  sched_changed_connected : Bool
  apply_connected : Bool
  disable_connected : Bool
  notices : List String

/-- `QMessageBox::critical(this, "CachyOS Kernel Manager", text)`. -/
def SchedExtWindow.critical (w : SchedExtWindow) (text : String) : SchedExtWindow :=
  { w with notices := w.notices ++ [text] }

/-- The list `sched_profiles` built in the constructor. -/
def sched_profiles : List String :=
  ["Auto", "Gaming", "Powersave", "Lowlatency", "Server"]

/-- The condition under which `on_sched_changed` shows the profile
selector. -/
def supports_profiles (scheduler : String) : Bool :=
  scheduler == "scx_bpfland" || scheduler == "scx_lavd"

/-- `SchedExtWindow::update_current_sched`. -/
def SchedExtWindow.update_current_sched (fs : KernelFiles) (w : SchedExtWindow) :
    SchedExtWindow :=
  { w with m_ui.current_sched_label.text := get_current_scheduler fs }

/-- `SchedExtWindow::on_disable`; `none` stands for the dereference of a null
`m_scx_config`. -/
def SchedExtWindow.on_disable (w : SchedExtWindow) : Option SchedExtWindow := do
  let w := { w with m_ui.disable_button.enabled := false }
  let w := { w with m_ui.apply_button.enabled := false }
  let config ← w.m_scx_config
  let w := if !config.disable_scheduler w.m_config_path then
      w.critical "Cannot disable scx_loader"
    else w
  let w := { w with m_ui.disable_button.enabled := true }
  let w := { w with m_ui.apply_button.enabled := true }
  return w

/-- `SchedExtWindow::on_sched_profile_changed`; `none` stands for the
dereference of a null `m_scx_config`. -/
def SchedExtWindow.on_sched_profile_changed (w : SchedExtWindow) : Option SchedExtWindow := do
  let current_selected := w.m_ui.schedext_combo_box.currentText
  let current_profile := w.m_ui.schedext_profile_combo_box.currentText
  let scx_mode := get_scx_mode_from_str current_profile
  let sched_args : List String := []
  let config ← w.m_scx_config
  let (w, sched_args) :=
    match config.scx_flags_for_mode current_selected scx_mode with
    | some scx_flags_for_mode =>
      if !scx_flags_for_mode.isEmpty then (w, sched_args ++ scx_flags_for_mode)
      else (w, sched_args)
    | none =>
      (w.critical "Cannot get scx flags from scx_loader configuration!", sched_args)
  return { w with m_ui.schedext_flags_edit.text := QStringList_join sched_args }

/-- `SchedExtWindow::on_sched_changed`. -/
def SchedExtWindow.on_sched_changed (w : SchedExtWindow) : Option SchedExtWindow :=
  let scheduler := w.m_ui.schedext_combo_box.currentText
  let w :=
    if supports_profiles scheduler then
      { w with
        m_ui.scheduler_profile_select_label.hidden := false
        m_ui.schedext_profile_combo_box.hidden := false }
    else
      { w with
        m_ui.scheduler_profile_select_label.hidden := true
        m_ui.schedext_profile_combo_box.hidden := true }
  w.on_sched_profile_changed

/-- `SchedExtWindow::on_apply`; `none` stands for the dereference of a null
`m_scx_config`. -/
def SchedExtWindow.on_apply (w : SchedExtWindow) : Option SchedExtWindow := do
  let w := { w with m_ui.disable_button.enabled := false }
  let w := { w with m_ui.apply_button.enabled := false }
  let current_selected := w.m_ui.schedext_combo_box.currentText
  let current_profile := w.m_ui.schedext_profile_combo_box.currentText
  let extra_flags := QString_trimmed w.m_ui.schedext_flags_edit.text
  let scx_mode := get_scx_mode_from_str current_profile
  let config ← w.m_scx_config
  let w :=
    if !config.apply_scheduler_change current_selected scx_mode extra_flags w.m_config_path then
      w.critical ("Cannot set default scx scheduler with mode! Scheduler " ++
        current_selected ++ " with mode " ++ current_profile)
    else w
  let w := { w with m_ui.disable_button.enabled := true }
  let w := { w with m_ui.apply_button.enabled := true }
  return w

/-- The window before the constructor body runs: the form as `setupUi` built
it, a timer that is neither connected nor running, no configuration handle,
no connection and no notice. -/
def SchedExtWindow.fresh (form : Ui) (config_path : String) : SchedExtWindow :=
  { m_ui := form
    m_sched_timer := { active := false, interval := 0, timeout_connected := false }
    m_scx_config := none
    m_config_path := config_path
    profile_changed_connected := false
    sched_changed_connected := false
    apply_connected := false
    disable_connected := false
    notices := [] }

/-- The constructor `SchedExtWindow::SchedExtWindow`. `form` is the form
after `setupUi`, `bridge` the loader as it answers during construction and
`fs` the kernel files at that time. A slot connected to `currentIndexChanged`
runs when `setCurrentIndex` changes the index. `none` stands for the
dereference of a null `m_scx_config`. -/
def SchedExtWindow.SchedExtWindow (form : Ui) (config_path : String)
    (bridge : scx_loader.Bridge) (fs : KernelFiles) : Option SchedExtWindow := do
  let w := SchedExtWindow.fresh form config_path
  match scx.loader.Config.init_config bridge w.m_config_path with
  | none =>
    return w.critical "Cannot initialize scx_loader configuration"
  | some loader_config =>
    let w := { w with m_scx_config := some loader_config }
    let w := { w with m_sched_timer.timeout_connected := true }
    let w := { w with m_sched_timer.active := true, m_sched_timer.interval := 1000 }
    match scx.loader.get_supported_scheds bridge with
    | none =>
      let w := w.critical ("Cannot get information from scx_loader!\nIs it working?\n" ++
        "This is needed for the app to work properly")
      return { w with
        m_ui.schedext_combo_box.hidden := true
        m_ui.scheduler_select_label.hidden := true
        m_ui.schedext_profile_combo_box.hidden := true
        m_ui.scheduler_profile_select_label.hidden := true
        m_ui.schedext_flags_edit.hidden := true
        m_ui.scheduler_set_flags_label.hidden := true }
    | some supported_scheds =>
      let w := { w with
        m_ui.schedext_combo_box := w.m_ui.schedext_combo_box.addItems supported_scheds }
      let config ← w.m_scx_config
      let w :=
        match config.get_current_sched with
        | some current_sched =>
          { w with
            m_ui.schedext_combo_box := w.m_ui.schedext_combo_box.setCurrentText current_sched }
        | none => w
      let w := { w with
        m_ui.schedext_profile_combo_box :=
          w.m_ui.schedext_profile_combo_box.addItems sched_profiles }
      let w := { w with profile_changed_connected := true }
      let w ←
        match config.get_current_mode with
        | some current_mode =>
          let box := w.m_ui.schedext_profile_combo_box
          let w := { w with
            m_ui.schedext_profile_combo_box := box.setCurrentIndex (current_mode.toRaw % 2 ^ 8) }
          if w.m_ui.schedext_profile_combo_box.currentIndex ≠ box.currentIndex then
            w.on_sched_profile_changed
          else some w
        | none => some w
      let w := { w with m_ui.current_sched_label.text := get_current_scheduler fs }
      let w := { w with sched_changed_connected := true }
      let w ← w.on_sched_changed
      let w := { w with apply_connected := true }
      let w := { w with disable_connected := true }
      return w

end scxctl.impl

/-! ## Example values -/

namespace scxctl.impl

/-- A form with empty selectors, empty texts and enabled buttons. -/
def blank_form : Ui :=
  { schedext_combo_box := { items := [], currentIndex := -1, hidden := false }
    scheduler_select_label := { text := "Select scheduler", hidden := false }
    schedext_profile_combo_box := { items := [], currentIndex := -1, hidden := false }
    scheduler_profile_select_label := { text := "Select profile", hidden := false }
    schedext_flags_edit := { text := "", hidden := false }
    scheduler_set_flags_label := { text := "Set flags", hidden := false }
    current_sched_label := { text := "", hidden := false }
    apply_button := { enabled := true }
    disable_button := { enabled := true } }

/-- A loader object that answers every call: `flags` for every flags
request, success for apply and disable, `scx_lavd` as scheduler and `mode`
as mode ordinal. -/
def answering_config (flags : List String) (mode : Nat) : scx_loader.Config :=
  { get_scx_flags_for_mode := fun _ _ => .ok flags
    apply_scheduler_change := fun _ _ _ _ => .ok ()
    disable_scheduler := fun _ => .ok ()
    get_current_sched := .ok "scx_lavd"
    get_current_mode := .ok mode }

/-- A loader object whose every call raises a fault. -/
def faulting_config : scx_loader.Config :=
  { get_scx_flags_for_mode := fun _ _ => .error "fault"
    apply_scheduler_change := fun _ _ _ _ => .error "fault"
    disable_scheduler := fun _ => .error "fault"
    get_current_sched := .error "fault"
    get_current_mode := .error "fault" }

/-- A bridge on which everything works. -/
def working_bridge (flags : List String) (mode : Nat) : scx_loader.Bridge :=
  { get_supported_scheds := .ok ["scx_bpfland", "scx_lavd", "scx_rusty"]
    init_config_file := fun _ => .ok (answering_config flags mode) }

/-- A bridge on which the configuration cannot be initialised. -/
def bridge_without_config : scx_loader.Bridge :=
  { get_supported_scheds := .ok ["scx_bpfland", "scx_lavd", "scx_rusty"]
    init_config_file := fun _ => .error "cannot parse the configuration" }

/-- A bridge on which the configuration is initialised and the list of
schedulers cannot be obtained. -/
def bridge_without_scheds : scx_loader.Bridge :=
  { get_supported_scheds := .error "no answer"
    init_config_file := fun _ => .ok (answering_config [] 0) }

/-- Kernel files made of the two given contents. -/
def kernel_files (state ops : Option String) : KernelFiles :=
  fun file_path =>
    if file_path = "/sys/kernel/sched_ext/state" then state
    else if file_path = "/sys/kernel/sched_ext/root/ops" then ops
    else none

/-- A window with `scx_lavd` and `Gaming` selected, the given flags text and
label, and the given loader object. -/
def lavd_gaming_window (config : scx_loader.Config) (flags_text label : String) :
    SchedExtWindow :=
  { m_ui :=
      { blank_form with
        schedext_combo_box :=
          { items := ["scx_bpfland", "scx_lavd", "scx_rusty"], currentIndex := 1, hidden := false }
        schedext_profile_combo_box := { items := sched_profiles, currentIndex := 1, hidden := false }
        schedext_flags_edit := { text := flags_text, hidden := false }
        current_sched_label := { text := label, hidden := false } }
    m_sched_timer := { active := true, interval := 1000, timeout_connected := true }
    m_scx_config := some ⟨config⟩
    m_config_path := "/etc/scx_loader.toml"
    profile_changed_connected := true
    sched_changed_connected := true
    apply_connected := true
    disable_connected := true
    notices := [] }

end scxctl.impl

/-! ## Auxiliary facts -/

theorem foldl_append_singleton (l acc : List String) :
    l.foldl (fun res el => res ++ [el]) acc = acc ++ l := by
  induction l generalizing acc with
  | nil => simp
  | cons x xs ih => simp [ih]

theorem convert_rust_vec_string_eq (rust_vec : List String) :
    convert_rust_vec_string rust_vec = rust_vec := by
  simp [convert_rust_vec_string, foldl_append_singleton]

theorem convert_std_vec_into_stringlist_eq (std_vec : List String) :
    convert_std_vec_into_stringlist std_vec = std_vec := by
  simp [convert_std_vec_into_stringlist, foldl_append_singleton]

theorem option_bind_total {α β : Type} (x : Option α) (f : α → Option β) (I : α → Prop)
    (Q : β → Prop) (hx : ∃ a, x = some a ∧ I a) (hf : ∀ a, I a → ∃ b, f a = some b ∧ Q b) :
    ∃ b, x.bind f = some b ∧ Q b := by
  obtain ⟨a, rfl, ha⟩ := hx
  exact hf a ha

theorem get_scx_mode_from_raw_toRaw (m : scx.SchedMode) :
    get_scx_mode_from_raw m.toRaw = m := by
  cases m <;> rfl

namespace scxctl.impl

theorem on_sched_profile_changed_of_some (w : SchedExtWindow) (config : scx.loader.Config)
    (fl : List String) (hc : w.m_scx_config = some config)
    (hf : config.scx_flags_for_mode w.m_ui.schedext_combo_box.currentText
      (get_scx_mode_from_str w.m_ui.schedext_profile_combo_box.currentText) = some fl) :
    w.on_sched_profile_changed =
      some { w with m_ui.schedext_flags_edit.text := QStringList_join fl } := by
  unfold SchedExtWindow.on_sched_profile_changed
  simp only [hc, hf, Option.bind_eq_bind, Option.some_bind, Option.pure_def]
  by_cases he : fl = []
  · subst he; simp [hc]
  · have : fl.isEmpty = false := by
      cases fl with
      | nil => exact absurd rfl he
      | cons a l => rfl
    simp [this, hc]

theorem on_sched_profile_changed_of_none (w : SchedExtWindow) (config : scx.loader.Config)
    (hc : w.m_scx_config = some config)
    (hf : config.scx_flags_for_mode w.m_ui.schedext_combo_box.currentText
      (get_scx_mode_from_str w.m_ui.schedext_profile_combo_box.currentText) = none) :
    w.on_sched_profile_changed =
      some { w.critical "Cannot get scx flags from scx_loader configuration!" with
        m_ui.schedext_flags_edit.text := QStringList_join [] } := by
  unfold SchedExtWindow.on_sched_profile_changed
  simp only [hc, hf, Option.bind_eq_bind, Option.some_bind, Option.pure_def]

theorem on_sched_profile_changed_total (w : SchedExtWindow) (config : scx.loader.Config)
    (hc : w.m_scx_config = some config) :
    ∃ w', w.on_sched_profile_changed = some w' ∧
      w'.m_ui.schedext_combo_box = w.m_ui.schedext_combo_box ∧
      w'.m_ui.schedext_profile_combo_box = w.m_ui.schedext_profile_combo_box ∧
      w'.m_ui.scheduler_profile_select_label = w.m_ui.scheduler_profile_select_label ∧
      w'.m_ui.current_sched_label = w.m_ui.current_sched_label ∧
      w'.m_sched_timer = w.m_sched_timer ∧
      w'.m_scx_config = w.m_scx_config := by
  rcases hf : config.scx_flags_for_mode w.m_ui.schedext_combo_box.currentText
      (get_scx_mode_from_str w.m_ui.schedext_profile_combo_box.currentText) with _ | fl
  · exact ⟨_, on_sched_profile_changed_of_none w config hc hf, rfl, rfl, rfl, rfl, rfl, rfl⟩
  · exact ⟨_, on_sched_profile_changed_of_some w config fl hc hf, rfl, rfl, rfl, rfl, rfl, rfl⟩

end scxctl.impl

/-! ## ModeCodec -/

/-- C1: `get_scx_mode_from_str` is a total function that returns `Gaming`
exactly on "Gaming", `LowLatency` exactly on "Lowlatency", `PowerSave` exactly
on "Powersave", `Server` exactly on "Server", and `Auto` on every other string;
"Auto", the empty string, "gaming" and "LowLatency" are among the latter. -/
theorem get_scx_mode_from_str_spec (s : String) :
    (get_scx_mode_from_str s = scx.SchedMode.Gaming ↔ s = "Gaming") ∧
    (get_scx_mode_from_str s = scx.SchedMode.LowLatency ↔ s = "Lowlatency") ∧
    (get_scx_mode_from_str s = scx.SchedMode.PowerSave ↔ s = "Powersave") ∧
    (get_scx_mode_from_str s = scx.SchedMode.Server ↔ s = "Server") ∧
    (get_scx_mode_from_str s = scx.SchedMode.Auto ↔
      (s ≠ "Gaming" ∧ s ≠ "Lowlatency" ∧ s ≠ "Powersave" ∧ s ≠ "Server")) ∧
    get_scx_mode_from_str "Auto" = scx.SchedMode.Auto ∧
    get_scx_mode_from_str "" = scx.SchedMode.Auto ∧
    get_scx_mode_from_str "gaming" = scx.SchedMode.Auto ∧
    get_scx_mode_from_str "LowLatency" = scx.SchedMode.Auto := by
  refine ⟨?_, ?_, ?_, ?_, ?_, by decide, by decide, by decide, by decide⟩ <;>
  · unfold get_scx_mode_from_str
    by_cases h1 : s = "Gaming"
    · subst h1; decide
    · by_cases h2 : s = "Lowlatency"
      · subst h2; decide
      · by_cases h3 : s = "Powersave"
        · subst h3; decide
        · by_cases h4 : s = "Server"
          · subst h4; decide
          · simp [h1, h2, h3, h4]

/-- C2: `get_scx_mode_from_raw` is total over `uint8`: for every `n` below 256
it returns `Auto` for 0, `Gaming` for 1, `PowerSave` for 2, `LowLatency` for 3,
`Server` for 4 and `Auto` for every `n` from 5 on. -/
theorem get_scx_mode_from_raw_spec (n : Nat) (hn : n < 256) :
    (n = 0 → get_scx_mode_from_raw n = scx.SchedMode.Auto) ∧
    (n = 1 → get_scx_mode_from_raw n = scx.SchedMode.Gaming) ∧
    (n = 2 → get_scx_mode_from_raw n = scx.SchedMode.PowerSave) ∧
    (n = 3 → get_scx_mode_from_raw n = scx.SchedMode.LowLatency) ∧
    (n = 4 → get_scx_mode_from_raw n = scx.SchedMode.Server) ∧
    (5 ≤ n → get_scx_mode_from_raw n = scx.SchedMode.Auto) := by
  have _ := hn
  refine ⟨?_, ?_, ?_, ?_, ?_, ?_⟩
  · rintro rfl; rfl
  · rintro rfl; rfl
  · rintro rfl; rfl
  · rintro rfl; rfl
  · rintro rfl; rfl
  · intro h5
    match n, h5 with
    | n + 5, _ => rfl

/-- Witness of C2 at the ordinals 0, 1, 2, 3, 4, 5 and 255. -/
theorem get_scx_mode_from_raw_spec_witness :
    get_scx_mode_from_raw 0 = scx.SchedMode.Auto ∧
    get_scx_mode_from_raw 1 = scx.SchedMode.Gaming ∧
    get_scx_mode_from_raw 2 = scx.SchedMode.PowerSave ∧
    get_scx_mode_from_raw 3 = scx.SchedMode.LowLatency ∧
    get_scx_mode_from_raw 4 = scx.SchedMode.Server ∧
    get_scx_mode_from_raw 5 = scx.SchedMode.Auto ∧
    get_scx_mode_from_raw 255 = scx.SchedMode.Auto :=
  ⟨(get_scx_mode_from_raw_spec 0 (by decide)).1 rfl,
   (get_scx_mode_from_raw_spec 1 (by decide)).2.1 rfl,
   (get_scx_mode_from_raw_spec 2 (by decide)).2.2.1 rfl,
   (get_scx_mode_from_raw_spec 3 (by decide)).2.2.2.1 rfl,
   (get_scx_mode_from_raw_spec 4 (by decide)).2.2.2.2.1 rfl,
   (get_scx_mode_from_raw_spec 5 (by decide)).2.2.2.2.2 (by decide),
   (get_scx_mode_from_raw_spec 255 (by decide)).2.2.2.2.2 (by decide)⟩

/-- C5: for each of the five canonical names, `get_scx_mode_from_str` gives
the mode the name stands for, and sending the ordinal of that mode (the
`uint32` wire value, narrowed to `uint8`) through `get_scx_mode_from_raw`
gives the same mode back. -/
theorem mode_name_ordinal_roundtrip (x : String) (m : scx.SchedMode)
    (hx : (x, m) ∈ [("Auto", scx.SchedMode.Auto), ("Gaming", scx.SchedMode.Gaming),
      ("Powersave", scx.SchedMode.PowerSave), ("Lowlatency", scx.SchedMode.LowLatency),
      ("Server", scx.SchedMode.Server)]) :
    get_scx_mode_from_str x = m ∧
    get_scx_mode_from_raw (get_scx_mode_from_str x).toRaw = get_scx_mode_from_str x ∧
    get_scx_mode_from_raw ((get_scx_mode_from_str x).toRaw % 2 ^ 32 % 2 ^ 8) =
      get_scx_mode_from_str x ∧
    (get_scx_mode_from_str x).toRaw = m.toRaw := by
  simp only [List.mem_cons, Prod.mk.injEq, List.mem_singleton, List.not_mem_nil, or_false] at hx
  rcases hx with ⟨rfl, rfl⟩ | ⟨rfl, rfl⟩ | ⟨rfl, rfl⟩ | ⟨rfl, rfl⟩ | ⟨rfl, rfl⟩ <;> decide

/-- Witness of C5 at the name "Lowlatency", whose ordinal is 3. -/
theorem mode_name_ordinal_roundtrip_witness :
    get_scx_mode_from_str "Lowlatency" = scx.SchedMode.LowLatency ∧
    get_scx_mode_from_raw (get_scx_mode_from_str "Lowlatency").toRaw =
      get_scx_mode_from_str "Lowlatency" ∧
    get_scx_mode_from_raw ((get_scx_mode_from_str "Lowlatency").toRaw % 2 ^ 32 % 2 ^ 8) =
      get_scx_mode_from_str "Lowlatency" ∧
    (get_scx_mode_from_str "Lowlatency").toRaw = scx.SchedMode.LowLatency.toRaw :=
  mode_name_ordinal_roundtrip "Lowlatency" scx.SchedMode.LowLatency (by decide)

/-! ## SchedulerCapabilityPolicy -/

namespace scxctl.impl

/-- C3: the condition `on_sched_changed` tests is true exactly for the names
"scx_bpfland" and "scx_lavd": it is false for "scx_rusty", for the empty name,
for another case and for a name with extra characters; and after
`on_sched_changed` the profile selector and its label are shown exactly when
the selected scheduler is one of the two names. -/
theorem supports_profiles_spec (name : String) :
    (supports_profiles name = true ↔ name = "scx_bpfland" ∨ name = "scx_lavd") ∧
    supports_profiles "scx_bpfland" = true ∧
    supports_profiles "scx_lavd" = true ∧
    supports_profiles "scx_rusty" = false ∧
    supports_profiles "" = false ∧
    supports_profiles "SCX_LAVD" = false ∧
    supports_profiles "scx_lavd " = false ∧
    supports_profiles "scx_bpfland2" = false ∧
    (∀ (w : SchedExtWindow) (config : scx.loader.Config),
      w.m_scx_config = some config →
      w.m_ui.schedext_combo_box.currentText = name →
      ∃ w', w.on_sched_changed = some w' ∧
        (w'.m_ui.schedext_profile_combo_box.hidden = false ↔
          name = "scx_bpfland" ∨ name = "scx_lavd") ∧
        (w'.m_ui.scheduler_profile_select_label.hidden = false ↔
          name = "scx_bpfland" ∨ name = "scx_lavd")) := by
  have key : supports_profiles name = true ↔ name = "scx_bpfland" ∨ name = "scx_lavd" := by
    simp [supports_profiles]
  refine ⟨key, by decide, by decide, by decide, by decide, by decide, by decide, by decide, ?_⟩
  intro w config hc hname
  by_cases hs : supports_profiles name = true
  · have hk := key.mp hs
    obtain ⟨w', hw', -, h2, h3, -⟩ := on_sched_profile_changed_total
      { w with
        m_ui.scheduler_profile_select_label.hidden := false
        m_ui.schedext_profile_combo_box.hidden := false } config hc
    refine ⟨w', ?_, ?_, ?_⟩
    · simp only [SchedExtWindow.on_sched_changed, hname, hs, if_true]
      exact hw'
    · simp [h2, hk]
    · simp [h3, hk]
  · have hk : ¬ (name = "scx_bpfland" ∨ name = "scx_lavd") := fun h => hs (key.mpr h)
    obtain ⟨w', hw', -, h2, h3, -⟩ := on_sched_profile_changed_total
      { w with
        m_ui.scheduler_profile_select_label.hidden := true
        m_ui.schedext_profile_combo_box.hidden := true } config hc
    refine ⟨w', ?_, ?_, ?_⟩
    · simp only [SchedExtWindow.on_sched_changed, hname, hs]
      exact hw'
    · simp [h2, hk]
    · simp [h3, hk]

/-- Witness of C3: with `scx_lavd` selected the profile selector is shown
after `on_sched_changed`. -/
theorem supports_profiles_spec_witness :
    ∃ w', (lavd_gaming_window faulting_config "" "").on_sched_changed = some w' ∧
      (w'.m_ui.schedext_profile_combo_box.hidden = false ↔
        "scx_lavd" = "scx_bpfland" ∨ "scx_lavd" = "scx_lavd") ∧
      (w'.m_ui.scheduler_profile_select_label.hidden = false ↔
        "scx_lavd" = "scx_bpfland" ∨ "scx_lavd" = "scx_lavd") :=
  (supports_profiles_spec "scx_lavd").2.2.2.2.2.2.2.2
    (lavd_gaming_window faulting_config "" "") ⟨faulting_config⟩ rfl (by decide)

end scxctl.impl

/-! ## KernelStateReader -/

/-- C4: let `state` and `ops` be what `read_kernel_file` yields for the two
kernel files. If `state` is not "enabled", `get_current_scheduler` returns
`state`, whatever `ops` is; if `state` is "enabled" and `ops` is empty it
returns "unknown"; if `state` is "enabled" and `ops` is not empty it returns
`ops`. A read of a file that is missing or empty yields the empty string. -/
theorem get_current_scheduler_spec (fs : KernelFiles) (state ops : String)
    (hstate : read_kernel_file fs "/sys/kernel/sched_ext/state" = state)
    (hops : read_kernel_file fs "/sys/kernel/sched_ext/root/ops" = ops) :
    (state ≠ "enabled" → get_current_scheduler fs = state) ∧
    (state ≠ "enabled" → ∀ fs2 : KernelFiles,
      fs2 "/sys/kernel/sched_ext/state" = fs "/sys/kernel/sched_ext/state" →
      get_current_scheduler fs2 = state) ∧
    (state = "enabled" → ops = "" → get_current_scheduler fs = "unknown") ∧
    (state = "enabled" → ops ≠ "" → get_current_scheduler fs = ops) ∧
    (∀ file_path, fs file_path = none ∨ fs file_path = some "" →
      read_kernel_file fs file_path = "") := by
  refine ⟨?_, ?_, ?_, ?_, ?_⟩
  · intro h
    simp [get_current_scheduler, hstate, h]
  · intro h fs2 h2
    have hs2 : read_kernel_file fs2 "/sys/kernel/sched_ext/state" = state := by
      rw [← hstate]
      simp [read_kernel_file, h2]
    simp [get_current_scheduler, hs2, h]
  · intro h1 h2
    simp [get_current_scheduler, hstate, hops, h1, h2]
  · intro h1 h2
    simp [get_current_scheduler, hstate, hops, h1, h2]
  · intro file_path h
    rcases h with h | h <;> simp [read_kernel_file, h, getline]

/-- Witness of C4: a state file holding `disabled` gives "disabled" even with
an ops file present, an unreadable state file gives the empty string, an
enabled state with an empty ops file gives "unknown", and an enabled state
with an ops file holding `scx_bpfland` gives "scx_bpfland". -/
theorem get_current_scheduler_spec_witness :
    get_current_scheduler
      (scxctl.impl.kernel_files (some "disabled\n") (some "scx_rusty\n")) = "disabled" ∧
    get_current_scheduler (scxctl.impl.kernel_files none (some "scx_rusty\n")) = "" ∧
    get_current_scheduler (scxctl.impl.kernel_files (some "enabled\n") (some "")) = "unknown" ∧
    get_current_scheduler
      (scxctl.impl.kernel_files (some "enabled\n") (some "scx_bpfland\n")) = "scx_bpfland" :=
  ⟨(get_current_scheduler_spec _ "disabled" "scx_rusty" (by decide) (by decide)).1 (by decide),
   (get_current_scheduler_spec _ "" "scx_rusty" (by decide) (by decide)).1 (by decide),
   (get_current_scheduler_spec _ "enabled" "" (by decide) (by decide)).2.2.1 rfl rfl,
   (get_current_scheduler_spec _ "enabled" "scx_bpfland" (by decide) (by decide)).2.2.2.1 rfl
     (by decide)⟩

/-! ## The order of the mode selector -/

namespace scxctl.impl

/-- C6: the list `sched_profiles` has five entries and for every index `i`
from 0 to 4 the entry at `i`, read by `get_scx_mode_from_str`, is the mode
`get_scx_mode_from_raw i`; hence in a selector holding this list, making `i`
the current index and reading the current text back by name gives the mode of
ordinal `i`, and selecting by the ordinal of a mode gives that mode back. -/
theorem sched_profiles_order (i : Nat) (hi : i < 5) :
    sched_profiles = ["Auto", "Gaming", "Powersave", "Lowlatency", "Server"] ∧
    (∃ name, sched_profiles.get? i = some name ∧
      get_scx_mode_from_str name = get_scx_mode_from_raw i) ∧
    (∀ box : QComboBox, box.items = sched_profiles →
      get_scx_mode_from_str (box.setCurrentIndex i).currentText = get_scx_mode_from_raw i) ∧
    (∀ (box : QComboBox) (m : scx.SchedMode), box.items = sched_profiles → m.toRaw = i →
      get_scx_mode_from_str (box.setCurrentIndex (m.toRaw % 2 ^ 8 : Nat)).currentText = m) := by
  have h3 : ∀ j : Nat, j < 5 → ∀ box : QComboBox, box.items = sched_profiles →
      get_scx_mode_from_str (box.setCurrentIndex j).currentText = get_scx_mode_from_raw j := by
    intro j hj box hb
    interval_cases j <;>
      simp [QComboBox.setCurrentIndex, QComboBox.currentText, hb, sched_profiles] <;> decide
  refine ⟨rfl, ?_, h3 i hi, ?_⟩
  · interval_cases i <;> simp [sched_profiles] <;> decide
  · intro box m hb hm
    have hlt : m.toRaw % 2 ^ 8 = m.toRaw := by cases m <;> rfl
    rw [hlt, h3 m.toRaw (by omega) box hb]
    exact get_scx_mode_from_raw_toRaw m

/-- Witness of C6 at index 3, the entry "Lowlatency". -/
theorem sched_profiles_order_witness :
    ∃ name, sched_profiles.get? 3 = some name ∧
      get_scx_mode_from_str name = get_scx_mode_from_raw 3 :=
  (sched_profiles_order 3 (by decide)).2.1

end scxctl.impl

/-! ## ConfigSession: the flags text -/

namespace scxctl.impl

/-- C7: when the loader answers the flags request for the selected scheduler
and the mode named by the selected profile with a sequence `fs`, then after
`on_sched_profile_changed`, and likewise after `on_sched_changed`, the flags
text is the elements of `fs` in their order joined by single spaces. -/
theorem on_sched_profile_changed_flags_text (w : SchedExtWindow)
    (config : scx.loader.Config) (fs : List String)
    (hc : w.m_scx_config = some config)
    (hf : config.m_config.get_scx_flags_for_mode w.m_ui.schedext_combo_box.currentText
      (get_scx_mode_from_str w.m_ui.schedext_profile_combo_box.currentText).toRaw = .ok fs) :
    (∃ w', w.on_sched_profile_changed = some w' ∧
      w'.m_ui.schedext_flags_edit.text = " ".intercalate fs) ∧
    (∃ w', w.on_sched_changed = some w' ∧
      w'.m_ui.schedext_flags_edit.text = " ".intercalate fs) := by
  have hwrap : config.scx_flags_for_mode w.m_ui.schedext_combo_box.currentText
      (get_scx_mode_from_str w.m_ui.schedext_profile_combo_box.currentText) = some fs := by
    simp [scx.loader.Config.scx_flags_for_mode, hf, convert_rust_vec_string_eq,
      convert_std_vec_into_stringlist_eq]
  refine ⟨⟨_, on_sched_profile_changed_of_some w config fs hc hwrap, rfl⟩, ?_⟩
  unfold SchedExtWindow.on_sched_changed
  by_cases hs : supports_profiles w.m_ui.schedext_combo_box.currentText = true
  · simp only [hs, if_true]
    exact ⟨_, on_sched_profile_changed_of_some _ config fs hc hwrap, rfl⟩
  · simp only [hs]
    exact ⟨_, on_sched_profile_changed_of_some _ config fs hc hwrap, rfl⟩

/-- Witness of C7: with `scx_lavd` and `Gaming` selected and a previous flags
text, the answer `["--gaming"]` gives the text "--gaming", the empty answer
gives the empty text, and a two element answer keeps its order. -/
theorem on_sched_profile_changed_flags_text_witness :
    (∃ w', (lavd_gaming_window (answering_config ["--gaming"] 1) "-v" "").on_sched_profile_changed
        = some w' ∧ w'.m_ui.schedext_flags_edit.text = "--gaming") ∧
    (∃ w', (lavd_gaming_window (answering_config [] 1) "-v" "").on_sched_profile_changed
        = some w' ∧ w'.m_ui.schedext_flags_edit.text = "") ∧
    (∃ w', (lavd_gaming_window (answering_config ["-b", "-a"] 1) "-v" "").on_sched_changed
        = some w' ∧ w'.m_ui.schedext_flags_edit.text = "-b -a") :=
  ⟨(on_sched_profile_changed_flags_text
      (lavd_gaming_window (answering_config ["--gaming"] 1) "-v" "")
      ⟨answering_config ["--gaming"] 1⟩ ["--gaming"] rfl rfl).1,
   (on_sched_profile_changed_flags_text
      (lavd_gaming_window (answering_config [] 1) "-v" "")
      ⟨answering_config [] 1⟩ [] rfl rfl).1,
   (on_sched_profile_changed_flags_text
      (lavd_gaming_window (answering_config ["-b", "-a"] 1) "-v" "")
      ⟨answering_config ["-b", "-a"] 1⟩ ["-b", "-a"] rfl rfl).2⟩

/-! ## ConfigSession: apply -/

/-- C8: `Config::apply_scheduler_change` returns false exactly when the call
to the loader raises a fault and true exactly when it returns; and when the
call made by `on_apply` (selected scheduler, mode named by the selected
profile, trimmed flags text, configuration path) raises a fault, `on_apply`
finishes with the scheduler selector, the profile selector, the flags edit and
the current scheduler label as they were, with both buttons enabled and with
one more notice. -/
theorem on_apply_fault (w : SchedExtWindow) (config : scx.loader.Config)
    (hc : w.m_scx_config = some config) :
    (∀ (scx_sched : String) (sched_mode : scx.SchedMode) (extra_flags filepath : String),
      (config.apply_scheduler_change scx_sched sched_mode extra_flags filepath = false ↔
        ∃ e, config.m_config.apply_scheduler_change scx_sched sched_mode.toRaw extra_flags
          filepath = .error e) ∧
      (config.apply_scheduler_change scx_sched sched_mode extra_flags filepath = true ↔
        config.m_config.apply_scheduler_change scx_sched sched_mode.toRaw extra_flags
          filepath = .ok ())) ∧
    (∀ e, config.m_config.apply_scheduler_change w.m_ui.schedext_combo_box.currentText
        (get_scx_mode_from_str w.m_ui.schedext_profile_combo_box.currentText).toRaw
        (QString_trimmed w.m_ui.schedext_flags_edit.text) w.m_config_path = .error e →
      ∃ w', w.on_apply = some w' ∧
        w'.m_ui.schedext_combo_box = w.m_ui.schedext_combo_box ∧
        w'.m_ui.schedext_profile_combo_box = w.m_ui.schedext_profile_combo_box ∧
        w'.m_ui.schedext_flags_edit = w.m_ui.schedext_flags_edit ∧
        w'.m_ui.current_sched_label = w.m_ui.current_sched_label ∧
        w'.m_ui.apply_button.enabled = true ∧
        w'.m_ui.disable_button.enabled = true ∧
        w'.notices = w.notices ++ ["Cannot set default scx scheduler with mode! Scheduler " ++
          w.m_ui.schedext_combo_box.currentText ++ " with mode " ++
          w.m_ui.schedext_profile_combo_box.currentText]) := by
  constructor
  · intro scx_sched sched_mode extra_flags filepath
    unfold scx.loader.Config.apply_scheduler_change
    cases h : config.m_config.apply_scheduler_change scx_sched sched_mode.toRaw extra_flags
      filepath <;> simp
  · intro e he
    have hfalse : config.apply_scheduler_change w.m_ui.schedext_combo_box.currentText
        (get_scx_mode_from_str w.m_ui.schedext_profile_combo_box.currentText)
        (QString_trimmed w.m_ui.schedext_flags_edit.text) w.m_config_path = false := by
      simp [scx.loader.Config.apply_scheduler_change, he]
    refine ⟨{ w.critical ("Cannot set default scx scheduler with mode! Scheduler " ++
          w.m_ui.schedext_combo_box.currentText ++ " with mode " ++
          w.m_ui.schedext_profile_combo_box.currentText) with
        m_ui.disable_button.enabled := true
        m_ui.apply_button.enabled := true }, ?_, rfl, rfl, rfl, rfl, rfl, rfl, rfl⟩
    unfold SchedExtWindow.on_apply
    simp only [hc, hfalse, Option.bind_eq_bind, Option.some_bind, Option.pure_def,
      Bool.not_false, if_true]
    simp [SchedExtWindow.critical, hc]

/-- Witness of C8: a loader whose apply call raises a fault, with `scx_lavd`,
`Gaming`, the flags text " -v " and the label "scx_lavd" displayed. -/
theorem on_apply_fault_witness :
    ∃ w', (lavd_gaming_window faulting_config " -v " "scx_lavd").on_apply = some w' ∧
      w'.m_ui.schedext_combo_box.currentText = "scx_lavd" ∧
      w'.m_ui.schedext_profile_combo_box.currentText = "Gaming" ∧
      w'.m_ui.schedext_flags_edit.text = " -v " ∧
      w'.m_ui.current_sched_label.text = "scx_lavd" ∧
      w'.m_ui.apply_button.enabled = true ∧
      w'.m_ui.disable_button.enabled = true := by
  obtain ⟨w', h, h1, h2, h3, h4, h5, h6, -⟩ :=
    (on_apply_fault (lavd_gaming_window faulting_config " -v " "scx_lavd") ⟨faulting_config⟩
      rfl).2 "fault" rfl
  exact ⟨w', h, by rw [h1]; decide, by rw [h2]; decide, by rw [h3]; rfl, by rw [h4]; rfl, h5, h6⟩

end scxctl.impl

/-! ## ConfigSession: the current mode -/

namespace scx.loader

theorem get_current_mode_eq (config : Config) :
    (config.get_current_mode = none ↔ ∃ e, config.m_config.get_current_mode = .error e) ∧
    (∀ n, config.m_config.get_current_mode = .ok n →
      config.get_current_mode = some (get_scx_mode_from_raw (n % 2 ^ 8))) := by
  unfold Config.get_current_mode
  cases h : config.m_config.get_current_mode <;> simp

theorem get_current_mode_of_lt (config : Config) (n : Nat) (hn : n < 2 ^ 8)
    (h : config.m_config.get_current_mode = .ok n) :
    config.get_current_mode = some (get_scx_mode_from_raw n) := by
  rw [(get_current_mode_eq config).2 n h, Nat.mod_eq_of_lt hn]

/-- C9: when the loader reports the mode ordinal 257, a `uint32` outside 0..4,
`Config::get_current_mode` returns `Gaming`: the ordinal is narrowed to the
`uint8` value 1 before it is decoded, so it is neither reported as a failure
nor coerced to `Auto`. The ordinals 258, 259 and 260 decode as `PowerSave`,
`LowLatency` and `Server` in the same way, while 256 and 5 decode as `Auto`. -/
theorem get_current_mode_ordinal_257 :
    (257 < 2 ^ 32 ∧ ¬ (257 ≤ 4)) ∧
    (Config.mk (scxctl.impl.answering_config [] 257)).get_current_mode =
      some scx.SchedMode.Gaming ∧
    (Config.mk (scxctl.impl.answering_config [] 257)).get_current_mode ≠
      some scx.SchedMode.Auto ∧
    (Config.mk (scxctl.impl.answering_config [] 258)).get_current_mode =
      some scx.SchedMode.PowerSave ∧
    (Config.mk (scxctl.impl.answering_config [] 259)).get_current_mode =
      some scx.SchedMode.LowLatency ∧
    (Config.mk (scxctl.impl.answering_config [] 260)).get_current_mode =
      some scx.SchedMode.Server ∧
    (Config.mk (scxctl.impl.answering_config [] 256)).get_current_mode =
      some scx.SchedMode.Auto ∧
    (Config.mk (scxctl.impl.answering_config [] 5)).get_current_mode =
      some scx.SchedMode.Auto := by
  refine ⟨by decide, ?_, ?_, ?_, ?_, ?_, ?_, ?_⟩ <;> decide

end scx.loader

/-! ## PollingController -/

namespace scxctl.impl

theorem constructor_without_config (form : Ui) (config_path : String)
    (bridge : scx_loader.Bridge) (fs : KernelFiles) (e : String)
    (h : bridge.init_config_file config_path = .error e) :
    SchedExtWindow.SchedExtWindow form config_path bridge fs =
      some ((SchedExtWindow.fresh form config_path).critical
        "Cannot initialize scx_loader configuration") := by
  simp [SchedExtWindow.SchedExtWindow, scx.loader.Config.init_config, SchedExtWindow.fresh, h]

theorem on_sched_profile_changed_ready (w : SchedExtWindow) (config : scx.loader.Config)
    (t : QTimer) (h : w.m_scx_config = some config ∧ w.m_sched_timer = t) :
    ∃ w', w.on_sched_profile_changed = some w' ∧
      (w'.m_scx_config = some config ∧ w'.m_sched_timer = t) := by
  obtain ⟨w', hw', -, -, -, -, h1, h2⟩ := on_sched_profile_changed_total w config h.1
  exact ⟨w', hw', h2.trans h.1, h1.trans h.2⟩

theorem on_sched_changed_ready (w : SchedExtWindow) (config : scx.loader.Config)
    (t : QTimer) (h : w.m_scx_config = some config ∧ w.m_sched_timer = t) :
    ∃ w', w.on_sched_changed = some w' ∧
      (w'.m_scx_config = some config ∧ w'.m_sched_timer = t) := by
  unfold SchedExtWindow.on_sched_changed
  by_cases hs : supports_profiles w.m_ui.schedext_combo_box.currentText = true
  · simp only [hs, if_true]
    exact on_sched_profile_changed_ready _ config t h
  · simp only [hs]
    exact on_sched_profile_changed_ready _ config t h

/-- The constructor returns a window on every input, and the timer of that
window runs exactly when the configuration could be initialised. -/
theorem constructor_timer (form : Ui) (config_path : String)
    (bridge : scx_loader.Bridge) (fs : KernelFiles) :
    ∃ w, SchedExtWindow.SchedExtWindow form config_path bridge fs = some w ∧
      (w.m_sched_timer.active = true ↔ ∃ c, bridge.init_config_file config_path = .ok c) := by
  cases h : bridge.init_config_file config_path with
  | error e =>
    exact ⟨_, constructor_without_config form config_path bridge fs e h,
      by simp [SchedExtWindow.critical, SchedExtWindow.fresh]⟩
  | ok c =>
    cases hcs : (scx.loader.Config.mk c).get_current_sched <;>
    cases hcm : (scx.loader.Config.mk c).get_current_mode <;>
    cases h2 : scx.loader.get_supported_scheds bridge <;>
    simp only [SchedExtWindow.SchedExtWindow, scx.loader.Config.init_config,
      SchedExtWindow.fresh, h, h2, hcs, hcm, Option.bind_eq_bind, Option.some_bind,
      Option.pure_def, SchedExtWindow.critical] <;>
    (try split_ifs) <;>
    first
    | (refine ⟨_, rfl, ?_⟩; simp)
    | (apply option_bind_total _ _ (fun a => a.m_scx_config = some ⟨c⟩ ∧
          a.m_sched_timer = { active := true, interval := 1000, timeout_connected := true })
       · exact on_sched_changed_ready _ _ _ ⟨rfl, rfl⟩
       · intro b hb
         exact ⟨_, rfl, by simp [hb.2]⟩)
    | (apply option_bind_total _ _ (fun a => a.m_scx_config = some ⟨c⟩ ∧
          a.m_sched_timer = { active := true, interval := 1000, timeout_connected := true })
       · exact on_sched_profile_changed_ready _ _ _ ⟨rfl, rfl⟩
       · intro a ha
         apply option_bind_total _ _ (fun a => a.m_scx_config = some ⟨c⟩ ∧
           a.m_sched_timer = { active := true, interval := 1000, timeout_connected := true })
         · exact on_sched_changed_ready _ _ _ ha
         · intro b hb
           exact ⟨_, rfl, by simp [hb.2]⟩)

/-- A timer tick writes the result of `get_current_scheduler` to the current
scheduler label and leaves the selectors and the flags edit alone. -/
theorem update_current_sched_label (fs : KernelFiles) (w : SchedExtWindow) :
    (w.update_current_sched fs).m_ui.current_sched_label.text = get_current_scheduler fs ∧
    (w.update_current_sched fs).m_ui.schedext_combo_box = w.m_ui.schedext_combo_box ∧
    (w.update_current_sched fs).m_ui.schedext_profile_combo_box =
      w.m_ui.schedext_profile_combo_box ∧
    (w.update_current_sched fs).m_ui.schedext_flags_edit = w.m_ui.schedext_flags_edit :=
  ⟨rfl, rfl, rfl, rfl⟩

/-- A construction on which everything works: the loader manages `scx_lavd`
in mode 1 and the kernel reports `scx_lavd`. -/
theorem constructor_working_example :
    ∃ w, SchedExtWindow.SchedExtWindow blank_form "/etc/scx_loader.toml"
        (working_bridge ["--gaming"] 1)
        (kernel_files (some "enabled\n") (some "scx_lavd\n")) = some w ∧
      w.m_sched_timer = { active := true, interval := 1000, timeout_connected := true } ∧
      w.m_ui.schedext_combo_box.currentText = "scx_lavd" ∧
      w.m_ui.schedext_profile_combo_box.currentText = "Gaming" ∧
      w.m_ui.schedext_profile_combo_box.hidden = false ∧
      w.m_ui.schedext_flags_edit.text = "--gaming" ∧
      w.m_ui.current_sched_label.text = "scx_lavd" ∧
      w.apply_connected = true ∧ w.disable_connected = true ∧ w.notices = [] :=
  ⟨_, rfl, rfl, rfl, rfl, rfl, rfl, rfl, rfl, rfl, rfl⟩

/-- C10: when the configuration cannot be initialised, the constructor
returns with the timer neither connected nor started, with no configuration
handle, with the current scheduler label as the form had it, and with one
notice; when the configuration is initialised and the list of schedulers
cannot be obtained, the timer is connected and running with an interval of
1000 milliseconds. -/
theorem constructor_without_config_no_timer :
    (∃ w, SchedExtWindow.SchedExtWindow blank_form "/etc/scx_loader.toml" bridge_without_config
        (kernel_files (some "enabled\n") (some "scx_lavd\n")) = some w ∧
      w.m_sched_timer.active = false ∧
      w.m_sched_timer.timeout_connected = false ∧
      w.m_scx_config.isNone = true ∧
      w.m_ui.current_sched_label.text = blank_form.current_sched_label.text ∧
      w.notices = ["Cannot initialize scx_loader configuration"]) ∧
    (∃ w, SchedExtWindow.SchedExtWindow blank_form "/etc/scx_loader.toml" bridge_without_scheds
        (kernel_files (some "enabled\n") (some "scx_lavd\n")) = some w ∧
      w.m_sched_timer.active = true ∧
      w.m_sched_timer.interval = 1000 ∧
      w.m_sched_timer.timeout_connected = true) :=
  ⟨⟨_, constructor_without_config blank_form "/etc/scx_loader.toml" bridge_without_config _
      "cannot parse the configuration" rfl, rfl, rfl, rfl, rfl, rfl⟩,
   ⟨_, rfl, rfl, rfl, rfl⟩⟩

end scxctl.impl

/-! ## ConfigSession: a fault of the flags request -/

namespace scxctl.impl

/-- C11, as stated, fails: with `scx_lavd` and `Gaming` selected, the flags
text "-v" displayed and a loader whose flags request raises a fault,
`on_sched_profile_changed` and `on_sched_changed` both finish with an empty
flags text, which is not the text displayed before; hence it is not true that
the flags text after the event is the prior text for every window. -/
theorem on_sched_profile_changed_fault_counterexample :
    (lavd_gaming_window faulting_config "-v" "").m_ui.schedext_flags_edit.text = "-v" ∧
    faulting_config.get_scx_flags_for_mode
      (lavd_gaming_window faulting_config "-v" "").m_ui.schedext_combo_box.currentText
      (get_scx_mode_from_str
        (lavd_gaming_window faulting_config "-v" "").m_ui.schedext_profile_combo_box.currentText).toRaw
      = .error "fault" ∧
    (∃ w', (lavd_gaming_window faulting_config "-v" "").on_sched_profile_changed = some w' ∧
      w'.m_ui.schedext_flags_edit.text = "" ∧
      w'.m_ui.schedext_flags_edit.text ≠
        (lavd_gaming_window faulting_config "-v" "").m_ui.schedext_flags_edit.text) ∧
    (∃ w', (lavd_gaming_window faulting_config "-v" "").on_sched_changed = some w' ∧
      w'.m_ui.schedext_flags_edit.text = "" ∧
      w'.m_ui.schedext_flags_edit.text ≠
        (lavd_gaming_window faulting_config "-v" "").m_ui.schedext_flags_edit.text) ∧
    ¬ (∀ (w : SchedExtWindow) (config : scx.loader.Config) (e : String),
        w.m_scx_config = some config →
        config.m_config.get_scx_flags_for_mode w.m_ui.schedext_combo_box.currentText
          (get_scx_mode_from_str w.m_ui.schedext_profile_combo_box.currentText).toRaw
          = .error e →
        ∀ w', w.on_sched_profile_changed = some w' →
          w'.m_ui.schedext_flags_edit.text = w.m_ui.schedext_flags_edit.text) := by
  refine ⟨rfl, rfl, ⟨_, rfl, rfl, by decide⟩, ⟨_, rfl, rfl, by decide⟩, ?_⟩
  intro h
  have h1 := h (lavd_gaming_window faulting_config "-v" "") ⟨faulting_config⟩ "fault" rfl rfl
    _ rfl
  exact absurd h1 (by decide)

/-- C11, amended: when the flags request for the selected scheduler and the
mode named by the selected profile raises a fault, `on_sched_profile_changed`,
and likewise `on_sched_changed`, finishes with an empty flags text, whatever
text was displayed before, so the text is the prior one only when that was
empty; one notice is added, and the scheduler selector, the selected profile
and the current scheduler label are as before. -/
theorem on_sched_profile_changed_fault_clears_flags (w : SchedExtWindow)
    (config : scx.loader.Config) (e : String)
    (hc : w.m_scx_config = some config)
    (hf : config.m_config.get_scx_flags_for_mode w.m_ui.schedext_combo_box.currentText
      (get_scx_mode_from_str w.m_ui.schedext_profile_combo_box.currentText).toRaw = .error e) :
    (∃ w', w.on_sched_profile_changed = some w' ∧
      w'.m_ui.schedext_flags_edit.text = "" ∧
      (w'.m_ui.schedext_flags_edit.text = w.m_ui.schedext_flags_edit.text ↔
        w.m_ui.schedext_flags_edit.text = "") ∧
      w'.m_ui.schedext_combo_box = w.m_ui.schedext_combo_box ∧
      w'.m_ui.schedext_profile_combo_box = w.m_ui.schedext_profile_combo_box ∧
      w'.m_ui.current_sched_label = w.m_ui.current_sched_label ∧
      w'.notices = w.notices ++ ["Cannot get scx flags from scx_loader configuration!"]) ∧
    (∃ w', w.on_sched_changed = some w' ∧
      w'.m_ui.schedext_flags_edit.text = "" ∧
      (w'.m_ui.schedext_flags_edit.text = w.m_ui.schedext_flags_edit.text ↔
        w.m_ui.schedext_flags_edit.text = "") ∧
      w'.m_ui.schedext_combo_box = w.m_ui.schedext_combo_box ∧
      w'.m_ui.schedext_profile_combo_box.currentText =
        w.m_ui.schedext_profile_combo_box.currentText ∧
      w'.m_ui.current_sched_label = w.m_ui.current_sched_label ∧
      w'.notices = w.notices ++ ["Cannot get scx flags from scx_loader configuration!"]) := by
  have hwrap : config.scx_flags_for_mode w.m_ui.schedext_combo_box.currentText
      (get_scx_mode_from_str w.m_ui.schedext_profile_combo_box.currentText) = none := by
    simp [scx.loader.Config.scx_flags_for_mode, hf]
  have hiff : ("" = w.m_ui.schedext_flags_edit.text ↔ w.m_ui.schedext_flags_edit.text = "") :=
    ⟨fun h => h.symm, fun h => h.symm⟩
  refine ⟨⟨_, on_sched_profile_changed_of_none w config hc hwrap, rfl, hiff, rfl, rfl, rfl,
    rfl⟩, ?_⟩
  unfold SchedExtWindow.on_sched_changed
  by_cases hs : supports_profiles w.m_ui.schedext_combo_box.currentText = true
  · simp only [hs, if_true]
    exact ⟨_, on_sched_profile_changed_of_none _ config hc hwrap, rfl, hiff, rfl, rfl, rfl, rfl⟩
  · simp only [hs]
    exact ⟨_, on_sched_profile_changed_of_none _ config hc hwrap, rfl, hiff, rfl, rfl, rfl, rfl⟩

/-- Witness of C11, amended: with `scx_lavd` and `Gaming` selected, the flags
text "-v" displayed and a loader whose flags request raises a fault, the
handler finishes with an empty flags text and one notice. -/
theorem on_sched_profile_changed_fault_clears_flags_witness :
    ∃ w', (lavd_gaming_window faulting_config "-v" "scx_lavd").on_sched_profile_changed
        = some w' ∧
      w'.m_ui.schedext_flags_edit.text = "" ∧
      w'.notices = ["Cannot get scx flags from scx_loader configuration!"] := by
  obtain ⟨w', h, h1, -, -, -, -, h2⟩ :=
    (on_sched_profile_changed_fault_clears_flags
      (lavd_gaming_window faulting_config "-v" "scx_lavd") ⟨faulting_config⟩ "fault" rfl rfl).1
  exact ⟨w', h, h1, h2⟩

end scxctl.impl
